import Mathlib

/-!
Shallow embedding of the request dispatch and retry engine of wire-nio
(file src/wire_nio/client/async_client.py): header construction for
api_send, the send path (URL and effective timeout), the api_send
retry/backoff loop with its two counters, parse_wire_response, and the
lazy client-session setup performed by the client_session decorator.

The retry loop is embedded as a function over a scripted list of
transport outcomes: each loop iteration performs exactly one send, so a
list element describes what that send (together with the subsequent
parse) did.  Sleep durations are rational numbers of seconds.
-/

/-- A typed response value as produced by the external variant
constructors.  Only the two observations api_send makes on it are
modelled: whether the value is an ErrorResponse (the isinstance check on
line 193) and its retry_after_ms attribute (read on line 200 by getattr
with default 0; none models an absent attribute). -/
structure WireResponse where
  isError : Bool
  retryAfterMs : Option Nat
  deriving DecidableEq, Repr

/-- One transport attempt as observed inside api_send's while-loop: a
transport response whose body decoded to a typed variant, a body that
failed to decode (the exception escapes, since it is not in the except
tuple of line 205), or a raised ClientConnectionError / TimeoutError /
asyncio TimeoutError. -/
inductive AttemptOutcome where
  | ok (status : Nat) (resp : WireResponse)
  | decodeErr
  | connError
  | timeoutErr
  deriving DecidableEq, Repr

/-- Exceptions that can propagate out of api_send. -/
inductive RaisedError where
  | decode
  | conn
  | timeout
  deriving DecidableEq, Repr

/-- Terminal outcome of the while-loop: a normal return of a response, a
propagated exception, or the scripted attempt list was exhausted while
the loop was still retrying (the real while True loop would keep
going). -/
inductive ApiResult where
  | returned (resp : WireResponse)
  | raised (e : RaisedError)
  | outOfScript
  deriving DecidableEq, Repr

/-- Observable trace of one run of the while-loop: its outcome, the
durations passed to sleep in order (seconds), the number of send
attempts consumed, and the final values of the two retry counters. -/
structure LoopTrace where
  result : ApiResult
  sleeps : List ℚ
  attemptsUsed : Nat
  got_429 : Nat
  got_timeouts : Nat
  deriving DecidableEq, Repr

/-- Python `max is not None and got > max` (lines 197 and 208): an
absent ceiling never triggers the exit. -/
def exceeds_ceiling : Option Nat → Nat → Bool
  | none, _ => false
  | some m, c => m < c

/-- Python `getattr(resp, "retry_after_ms", 0)`: the attribute's value
when present, 0 when absent. -/
def getattr_retry_after_ms (r : WireResponse) : Nat :=
  r.retryAfterMs.getD 0

/-- Python `x or 5000`: 5000 when x is falsy (0), else x (line 200). -/
def or_5000 (n : Nat) : Nat :=
  if n = 0 then 5000 else n

/-- The while True loop of api_send (lines 181-212), driven by the
scripted attempt outcomes.  Arguments max_429 and max_timeouts are the
config ceilings (config.max_limit_exceeded, config.max_timeouts), and
wait_time is the external collaborator get_timeout_retry_wait_time.
State arguments are the counters got_429 and got_timeouts. -/
def api_send_loop (max_429 max_timeouts : Option Nat) (wait_time : Nat → ℚ) :
    List AttemptOutcome → Nat → Nat → LoopTrace
  | [], got_429, got_timeouts =>
      { result := .outOfScript, sleeps := [], attemptsUsed := 0,
        got_429 := got_429, got_timeouts := got_timeouts }
  | .ok status resp :: rest, got_429, got_timeouts =>
      if status == 429 || resp.isError then
        if exceeds_ceiling max_429 (got_429 + 1) then
          { result := .returned resp, sleeps := [], attemptsUsed := 1,
            got_429 := got_429 + 1, got_timeouts := got_timeouts }
        else
          let retry_after_ms := or_5000 (getattr_retry_after_ms resp)
          let t := api_send_loop max_429 max_timeouts wait_time rest
            (got_429 + 1) got_timeouts
          { result := t.result,
            sleeps := ((retry_after_ms : ℚ) / 1000) :: t.sleeps,
            attemptsUsed := t.attemptsUsed + 1,
            got_429 := t.got_429, got_timeouts := t.got_timeouts }
      else
        { result := .returned resp, sleeps := [], attemptsUsed := 1,
          got_429 := got_429, got_timeouts := got_timeouts }
  | .decodeErr :: _, got_429, got_timeouts =>
      { result := .raised .decode, sleeps := [], attemptsUsed := 1,
        got_429 := got_429, got_timeouts := got_timeouts }
  | .connError :: rest, got_429, got_timeouts =>
      if exceeds_ceiling max_timeouts (got_timeouts + 1) then
        { result := .raised .conn, sleeps := [], attemptsUsed := 1,
          got_429 := got_429, got_timeouts := got_timeouts + 1 }
      else
        let t := api_send_loop max_429 max_timeouts wait_time rest
          got_429 (got_timeouts + 1)
        { result := t.result,
          sleeps := wait_time (got_timeouts + 1) :: t.sleeps,
          attemptsUsed := t.attemptsUsed + 1,
          got_429 := t.got_429, got_timeouts := t.got_timeouts }
  | .timeoutErr :: rest, got_429, got_timeouts =>
      if exceeds_ceiling max_timeouts (got_timeouts + 1) then
        { result := .raised .timeout, sleeps := [], attemptsUsed := 1,
          got_429 := got_429, got_timeouts := got_timeouts + 1 }
      else
        let t := api_send_loop max_429 max_timeouts wait_time rest
          got_429 (got_timeouts + 1)
        { result := t.result,
          sleeps := wait_time (got_timeouts + 1) :: t.sleeps,
          attemptsUsed := t.attemptsUsed + 1,
          got_429 := t.got_429, got_timeouts := t.got_timeouts }

/-- receive_response (lines 217-236): raises ValueError unless given a
BaseResponse; every WireResponse of this embedding is a BaseResponse, so
it always forwards the response to the state-update hook.  The result
lists the responses passed through the hook. -/
def receive_response (r : WireResponse) : List WireResponse :=
  [r]

/-- Result of a whole api_send call: the loop trace plus the responses
that were passed through receive_response before returning (line 214);
empty when an exception propagates or the script ran out. -/
structure ApiSendResult where
  trace : LoopTrace
  received : List WireResponse
  deriving DecidableEq, Repr

/-- api_send's retry portion (lines 175-215): counters start at 0, the
loop runs, and on a normal exit the terminal response goes through
receive_response and is returned. -/
def api_send (max_429 max_timeouts : Option Nat) (wait_time : Nat → ℚ)
    (attempts : List AttemptOutcome) : ApiSendResult :=
  let t := api_send_loop max_429 max_timeouts wait_time attempts 0 0
  { trace := t,
    received :=
      match t.result with
      | .returned r => receive_response r
      | _ => [] }

/-- Whether an attempt outcome takes the rate-limited branch of the
loop (line 191): transport status 429 or a decoded ErrorResponse. -/
def isRateLimited : AttemptOutcome → Bool
  | .ok status resp => status == 429 || resp.isError
  | _ => false

/-- Whether an attempt outcome is caught by the except clause of line
205 (a connection or timeout error). -/
def isConnOrTimeout : AttemptOutcome → Bool
  | .connError => true
  | .timeoutErr => true
  | _ => false

/-- The exception type an attempt outcome raises, used to state which
error is re-raised once the timeout ceiling is exceeded. -/
def raised_of : AttemptOutcome → RaisedError
  | .connError => .conn
  | .timeoutErr => .timeout
  | _ => .decode

/-- The sleep duration before a rate-limit retry as the specification
words it: retry_after_ms divided by 1000 seconds when the field is
present and non-zero, 5 seconds otherwise. -/
def claimedRateLimitSleep : AttemptOutcome → ℚ
  | .ok _ resp =>
    match resp.retryAfterMs with
    | some ms => if ms = 0 then 5 else (ms : ℚ) / 1000
    | none => 5
  | _ => 0

/-- The variant classes that api_send is invoked with in this file. -/
inductive ResponseClass where
  | loginResponse
  | usersResponse
  | conversationsResponse
  | clientsResponse
  | notificationsResponse
  deriving DecidableEq, Repr

/-- Python truth of the line 169 test isinstance(response_class,
response.LoginResponse), where response_class is itself a class object:
a class is an instance of its metaclass type, never an instance of the
plain class LoginResponse, so the test evaluates to False for every
class passed in, LoginResponse itself included. -/
def isinstance_class_LoginResponse (_ : ResponseClass) : Bool :=
  false

/-- Python `content_type if content_type else "application/json"`
(line 164): None and the empty string are falsy. -/
def content_type_or_default : Option String → String
  | none => "application/json"
  | some s => if s = "" then "application/json" else s

/-- The header dict built by api_send (lines 163-173), as an
insertion-ordered association list.  The Authorization header is added
exactly when the line 169 isinstance test is false. -/
def build_api_headers (response_class : ResponseClass)
    (content_type : Option String) (user_agent access_token : String)
    (content_length : Option Nat) : List (String × String) :=
  let headers := [("Content-Type", content_type_or_default content_type),
                  ("Accept", "*/*"),
                  ("User-Agent", user_agent)]
  let headers :=
    if !isinstance_class_LoginResponse response_class then
      headers ++ [("Authorization", "Bearer " ++ access_token)]
    else
      headers
  match content_length with
  | some n => headers ++ [("Content-Length", toString n)]
  | none => headers

/-- parse_wire_response (lines 238-265): normalizes `data = data or ()`,
reads the content type, decodes the body, computes is_json (unused), and
returns response_class().parse_data(content).  parseData stands for the
external variant constructor response_class().parse_data, content for
the decoded JSON value, and data for the caller-supplied extra tuple. -/
def parse_wire_response {Content : Type} (parseData : Content → WireResponse)
    (content_type : String) (content : Content)
    (data : Option (List Nat)) : WireResponse :=
  let _data : List Nat := data.getD []
  let _is_json : Bool := content_type == "application/json"
  parseData content

/-- The aiohttp ClientSession as configured by the client_session
decorator: the ClientTimeout(total=...) value and whether
connector.connect has been replaced by the connect_wrapper partial. -/
structure ClientSessionModel where
  timeoutTotal : ℚ
  connectorConnectWrapped : Bool
  deriving DecidableEq, Repr

/-- The fields of AsyncClient that the client_session decorator reads
and writes. -/
structure AsyncClientState where
  client_session : Option ClientSessionModel
  config_request_timeout : ℚ
  deriving DecidableEq, Repr

/-- A transport connection, observed through the write buffer limit
that connect_wrapper may set on it. -/
structure ConnectionModel where
  writeBufferLimit : Option Nat
  deriving DecidableEq, Repr

/-- connect_wrapper (lines 50-53): perform the underlying connect, then
call set_write_buffer_limits(16 * 1024) on the new connection's
transport. -/
def connect_wrapper (c : ConnectionModel) : ConnectionModel :=
  { c with writeBufferLimit := some (16 * 1024) }

/-- The body of the client_session decorator's wrapper (lines 60-72): if
self.client_session is falsy (None), create a ClientSession with a total
timeout of config.request_timeout and patch its connector.connect with
connect_wrapper; otherwise leave the state untouched. -/
def client_session_wrapper (s : AsyncClientState) : AsyncClientState :=
  match s.client_session with
  | none =>
    { s with
      client_session := some ⟨s.config_request_timeout, true⟩ }
  | some _ => s

/-- The fixed server base URL assigned in AsyncClient's constructor
(line 90). -/
def wire_server : String :=
  "https://prod-nginz-https.wire.com"

/-- The request produced by AsyncClient.send, observed through the
pieces the claims speak about: the method, the request URL and the
timeout passed to the session request. -/
structure SendRequest where
  method : String
  url : String
  timeout : ℚ
  deriving DecidableEq, Repr

/-- AsyncClient.send (lines 140-150): the URL is self.server + path and
the timeout is `self.config.request_timeout if timeout is None else
timeout`. -/
def send (server : String) (config_request_timeout : ℚ)
    (method path : String) (timeout : Option ℚ) : SendRequest :=
  { method := method,
    url := server ++ path,
    timeout :=
      match timeout with
      | none => config_request_timeout
      | some t => t }

/-! Helper lemmas about the retry loop. -/

/-- The sleep computed from the code (getattr with default 0, `or 5000`,
division by 1000) equals the sleep as the specification words it. -/
theorem code_sleep_eq_claimed (status : Nat) (resp : WireResponse) :
    ((or_5000 (getattr_retry_after_ms resp) : ℚ) / 1000) =
      claimedRateLimitSleep (.ok status resp) := by
  cases h : resp.retryAfterMs with
  | none =>
    simp [getattr_retry_after_ms, h, or_5000, claimedRateLimitSleep]
    norm_num
  | some ms =>
    by_cases hm : ms = 0
    · subst hm
      simp [getattr_retry_after_ms, h, or_5000, claimedRateLimitSleep]
      norm_num
    · simp [getattr_retry_after_ms, h, or_5000, hm, claimedRateLimitSleep]

/-- Running the loop over a block of rate-limited attempts that stays
under the ceiling: each attempt sleeps its claimed duration, increments
got_429 and continues with the rest of the script. -/
theorem rl_segment (max_429 max_timeouts : Option Nat) (wait_time : Nat → ℚ)
    (pre rest : List AttemptOutcome) (c t : Nat)
    (hpre : ∀ a ∈ pre, isRateLimited a = true)
    (hc : ∀ i, i < pre.length → exceeds_ceiling max_429 (c + i + 1) = false) :
    api_send_loop max_429 max_timeouts wait_time (pre ++ rest) c t =
      { result :=
          (api_send_loop max_429 max_timeouts wait_time rest (c + pre.length) t).result,
        sleeps := pre.map claimedRateLimitSleep ++
          (api_send_loop max_429 max_timeouts wait_time rest (c + pre.length) t).sleeps,
        attemptsUsed := pre.length +
          (api_send_loop max_429 max_timeouts wait_time rest (c + pre.length) t).attemptsUsed,
        got_429 :=
          (api_send_loop max_429 max_timeouts wait_time rest (c + pre.length) t).got_429,
        got_timeouts :=
          (api_send_loop max_429 max_timeouts wait_time rest (c + pre.length) t).got_timeouts } := by
  induction pre generalizing c with
  | nil => simp
  | cons a pre ih =>
    have ha : isRateLimited a = true := hpre a (List.mem_cons_self a pre)
    cases a with
    | decodeErr => simp [isRateLimited] at ha
    | connError => simp [isRateLimited] at ha
    | timeoutErr => simp [isRateLimited] at ha
    | ok status resp =>
      have hcond : (status == 429 || resp.isError) = true := by
        simpa [isRateLimited] using ha
      have h0 : exceeds_ceiling max_429 (c + 1) = false := by
        simpa using hc 0 (by simp)
      have hrec := ih (c + 1) (fun a ha' => hpre a (List.mem_cons_of_mem _ ha'))
        (fun i hi => by
          have h := hc (i + 1) (by simp; omega)
          have e : c + (i + 1) + 1 = c + 1 + i + 1 := by omega
          rwa [e] at h)
      have e : c + 1 + pre.length = c + (pre.length + 1) := by omega
      simp only [List.cons_append, api_send_loop, hcond, h0, if_true, Bool.false_eq_true,
        if_false, List.length_cons, List.append_eq]
      rw [hrec, e]
      simp [Nat.add_assoc, Nat.add_comm, Nat.add_left_comm]
      exact code_sleep_eq_claimed status resp

/-- Running the loop over a block of connection/timeout failures that
stays under the ceiling: each failure sleeps the pluggable wait keyed by
the incremented got_timeouts counter and continues with the rest of the
script. -/
theorem timeout_segment (max_429 max_timeouts : Option Nat) (wait_time : Nat → ℚ)
    (pre rest : List AttemptOutcome) (c t : Nat)
    (hpre : ∀ a ∈ pre, isConnOrTimeout a = true)
    (ht : ∀ i, i < pre.length → exceeds_ceiling max_timeouts (t + i + 1) = false) :
    api_send_loop max_429 max_timeouts wait_time (pre ++ rest) c t =
      { result :=
          (api_send_loop max_429 max_timeouts wait_time rest c (t + pre.length)).result,
        sleeps := (List.range pre.length).map (fun i => wait_time (t + i + 1)) ++
          (api_send_loop max_429 max_timeouts wait_time rest c (t + pre.length)).sleeps,
        attemptsUsed := pre.length +
          (api_send_loop max_429 max_timeouts wait_time rest c (t + pre.length)).attemptsUsed,
        got_429 :=
          (api_send_loop max_429 max_timeouts wait_time rest c (t + pre.length)).got_429,
        got_timeouts :=
          (api_send_loop max_429 max_timeouts wait_time rest c (t + pre.length)).got_timeouts } := by
  induction pre generalizing t with
  | nil => simp
  | cons a pre ih =>
    have ha : isConnOrTimeout a = true := hpre a (List.mem_cons_self a pre)
    have h0 : exceeds_ceiling max_timeouts (t + 1) = false := by
      simpa using ht 0 (by simp)
    have hrec := ih (t + 1) (fun a ha' => hpre a (List.mem_cons_of_mem _ ha'))
      (fun i hi => by
        have h := ht (i + 1) (by simp; omega)
        have e : t + (i + 1) + 1 = t + 1 + i + 1 := by omega
        rwa [e] at h)
    have e : t + 1 + pre.length = t + (pre.length + 1) := by omega
    have hfun : ((fun i => wait_time (t + i + 1)) ∘ Nat.succ) =
        (fun i => wait_time (t + 1 + i + 1)) := by
      funext i
      simp only [Function.comp]
      congr 1
      omega
    cases a with
    | ok status resp => simp [isConnOrTimeout] at ha
    | decodeErr => simp [isConnOrTimeout] at ha
    | connError =>
      simp only [List.cons_append, api_send_loop, h0, Bool.false_eq_true, if_false,
        List.length_cons, List.append_eq]
      rw [hrec, e]
      simp [List.range_succ_eq_map, List.map_map, hfun, Nat.add_assoc, Nat.add_comm,
        Nat.add_left_comm]
    | timeoutErr =>
      simp only [List.cons_append, api_send_loop, h0, Bool.false_eq_true, if_false,
        List.length_cons, List.append_eq]
      rw [hrec, e]
      simp [List.range_succ_eq_map, List.map_map, hfun, Nat.add_assoc, Nat.add_comm,
        Nat.add_left_comm]

/-! Claim theorems. -/

/-- Claim C1 (code bug): the claim says a login call's headers contain
no Authorization header, but the code's line 169 test
isinstance(response_class, response.LoginResponse) is false for every
class object, so api_send builds the Authorization header even when the
target variant is the login variant.  This theorem evaluates the header
construction at the failing input response_class = LoginResponse. -/
theorem C1_login_call_sends_auth_header :
    build_api_headers .loginResponse none "wire-nio/0.2.0" "secret-token" none =
      [("Content-Type", "application/json"),
       ("Accept", "*/*"),
       ("User-Agent", "wire-nio/0.2.0"),
       ("Authorization", "Bearer secret-token")] := by
  decide

/-- Claim C2: if the first K attempts are rate-limited (HTTP 429 or a
decoded ErrorResponse) with K at most the configured ceiling and
attempt K+1 is a success, api_send sleeps retry_after_ms/1000 seconds
before each retry when the field is present and non-zero and 5 seconds
otherwise, performs exactly K retries, and returns the success variant
of attempt K+1 (K = 0 gives the no-sleep first-attempt return). -/
theorem C2_rate_limited_then_success (max_429 : Nat) (max_timeouts : Option Nat)
    (wait_time : Nat → ℚ) (pre : List AttemptOutcome)
    (status : Nat) (resp : WireResponse)
    (hpre : ∀ a ∈ pre, isRateLimited a = true)
    (hK : pre.length ≤ max_429)
    (hsucc : isRateLimited (.ok status resp) = false) :
    api_send (some max_429) max_timeouts wait_time (pre ++ [.ok status resp]) =
      { trace := { result := .returned resp,
                   sleeps := pre.map claimedRateLimitSleep,
                   attemptsUsed := pre.length + 1,
                   got_429 := pre.length,
                   got_timeouts := 0 },
        received := [resp] } := by
  have hc : ∀ i, i < pre.length → exceeds_ceiling (some max_429) (0 + i + 1) = false := by
    intro i hi
    simp only [exceeds_ceiling, decide_eq_false_iff_not]
    omega
  have hcond : (status == 429 || resp.isError) = false := by
    simpa [isRateLimited] using hsucc
  unfold api_send
  rw [rl_segment (some max_429) max_timeouts wait_time pre [.ok status resp] 0 0 hpre hc]
  simp [api_send_loop, hcond, receive_response]

/-- Witness for C2 at a concrete run: two rate-limited attempts (one by
status 429 carrying retry_after_ms 1500, one by ErrorResponse with the
field absent), then a success; sleeps are 1.5 s and 5 s. -/
theorem C2_rate_limited_then_success_witness :
    api_send (some 2) none (fun _ => 0)
      ([.ok 429 ⟨false, some 1500⟩, .ok 200 ⟨true, none⟩] ++ [.ok 200 ⟨false, none⟩]) =
      { trace := { result := .returned ⟨false, none⟩,
                   sleeps := [3 / 2, 5],
                   attemptsUsed := 3,
                   got_429 := 2,
                   got_timeouts := 0 },
        received := [⟨false, none⟩] } :=
  (C2_rate_limited_then_success 2 none (fun _ => 0)
    [.ok 429 ⟨false, some 1500⟩, .ok 200 ⟨true, none⟩] 200 ⟨false, none⟩
    (by decide) (by decide) (by decide)).trans (by
      norm_num [claimedRateLimitSleep])

/-- Claim C3: when the first ceiling-plus-one attempts are all
rate-limited, api_send performs exactly ceiling retries (one sleep
before each), then stops and returns the last received error variant
normally, passing it through receive_response; nothing is raised and no
further attempt is consumed. -/
theorem C3_rate_limit_ceiling_exhausted (max_429 : Nat) (max_timeouts : Option Nat)
    (wait_time : Nat → ℚ) (pre rest : List AttemptOutcome)
    (status : Nat) (resp : WireResponse)
    (hpre : ∀ a ∈ pre, isRateLimited a = true)
    (hlen : pre.length = max_429)
    (hlast : isRateLimited (.ok status resp) = true) :
    api_send (some max_429) max_timeouts wait_time (pre ++ .ok status resp :: rest) =
      { trace := { result := .returned resp,
                   sleeps := pre.map claimedRateLimitSleep,
                   attemptsUsed := max_429 + 1,
                   got_429 := max_429 + 1,
                   got_timeouts := 0 },
        received := [resp] } := by
  subst hlen
  have hc : ∀ i, i < pre.length → exceeds_ceiling (some pre.length) (0 + i + 1) = false := by
    intro i hi
    simp only [exceeds_ceiling, decide_eq_false_iff_not]
    omega
  have hcond : (status == 429 || resp.isError) = true := by
    simpa [isRateLimited] using hlast
  have hexc : exceeds_ceiling (some pre.length) (pre.length + 1) = true := by
    simp only [exceeds_ceiling, decide_eq_true_eq]
    omega
  unfold api_send
  rw [rl_segment (some pre.length) max_timeouts wait_time pre (.ok status resp :: rest)
    0 0 hpre hc]
  simp [api_send_loop, hcond, hexc, receive_response]

/-- Witness for C3 with ceiling 1: two rate-limited attempts, one sleep
of 2 s, the second error variant returned through receive_response. -/
theorem C3_rate_limit_ceiling_exhausted_witness :
    api_send (some 1) none (fun _ => 0)
      ([.ok 429 ⟨true, some 2000⟩] ++ .ok 429 ⟨true, none⟩ :: []) =
      { trace := { result := .returned ⟨true, none⟩,
                   sleeps := [2],
                   attemptsUsed := 2,
                   got_429 := 2,
                   got_timeouts := 0 },
        received := [⟨true, none⟩] } :=
  (C3_rate_limit_ceiling_exhausted 1 none (fun _ => 0)
    [.ok 429 ⟨true, some 2000⟩] [] 429 ⟨true, none⟩
    (by decide) (by decide) (by decide)).trans (by
      norm_num [claimedRateLimitSleep])

/-- Claim C4: if the first K attempts raise a connection or timeout
error with K at most the timeout ceiling and attempt K+1 succeeds,
api_send performs exactly K retries, each preceded by a sleep of the
pluggable wait keyed by the current got_timeouts count, and returns the
success variant; and if the errors persist past the ceiling, the
original connection/timeout error is re-raised after exactly ceiling
retries. -/
theorem C4_timeout_retries_then_success_or_reraise (max_429 : Option Nat)
    (max_timeouts : Nat) (wait_time : Nat → ℚ) :
    (∀ (pre : List AttemptOutcome) (status : Nat) (resp : WireResponse),
      (∀ a ∈ pre, isConnOrTimeout a = true) →
      pre.length ≤ max_timeouts →
      isRateLimited (.ok status resp) = false →
      api_send max_429 (some max_timeouts) wait_time (pre ++ [.ok status resp]) =
        { trace := { result := .returned resp,
                     sleeps := (List.range pre.length).map (fun i => wait_time (i + 1)),
                     attemptsUsed := pre.length + 1,
                     got_429 := 0,
                     got_timeouts := pre.length },
          received := [resp] })
  ∧ (∀ (pre rest : List AttemptOutcome) (e : AttemptOutcome),
      (∀ a ∈ pre, isConnOrTimeout a = true) →
      pre.length = max_timeouts →
      isConnOrTimeout e = true →
      api_send max_429 (some max_timeouts) wait_time (pre ++ e :: rest) =
        { trace := { result := .raised (raised_of e),
                     sleeps := (List.range max_timeouts).map (fun i => wait_time (i + 1)),
                     attemptsUsed := max_timeouts + 1,
                     got_429 := 0,
                     got_timeouts := max_timeouts + 1 },
          received := [] }) := by
  constructor
  · intro pre status resp hpre hK hsucc
    have ht : ∀ i, i < pre.length →
        exceeds_ceiling (some max_timeouts) (0 + i + 1) = false := by
      intro i hi
      simp only [exceeds_ceiling, decide_eq_false_iff_not]
      omega
    have hcond : (status == 429 || resp.isError) = false := by
      simpa [isRateLimited] using hsucc
    unfold api_send
    rw [timeout_segment max_429 (some max_timeouts) wait_time pre [.ok status resp]
      0 0 hpre ht]
    simp [api_send_loop, hcond, receive_response]
  · intro pre rest e hpre hlen he
    subst hlen
    have ht : ∀ i, i < pre.length →
        exceeds_ceiling (some pre.length) (0 + i + 1) = false := by
      intro i hi
      simp only [exceeds_ceiling, decide_eq_false_iff_not]
      omega
    have hexc : exceeds_ceiling (some pre.length) (pre.length + 1) = true := by
      simp only [exceeds_ceiling, decide_eq_true_eq]
      omega
    unfold api_send
    rw [timeout_segment max_429 (some pre.length) wait_time pre (e :: rest) 0 0 hpre ht]
    cases e with
    | ok status resp => simp [isConnOrTimeout] at he
    | decodeErr => simp [isConnOrTimeout] at he
    | connError => simp [api_send_loop, hexc, raised_of]
    | timeoutErr => simp [api_send_loop, hexc, raised_of]

/-- Witness for C4 with ceiling 1: a connection error then a success
(one retry sleeping the wait for got_timeouts = 1), and a timeout error
followed by a connection error (one retry, then the connection error of
the second attempt is re-raised). -/
theorem C4_timeout_retries_then_success_or_reraise_witness :
    api_send none (some 1) (fun n => n) ([.connError] ++ [.ok 200 ⟨false, none⟩]) =
      { trace := { result := .returned ⟨false, none⟩,
                   sleeps := [1],
                   attemptsUsed := 2,
                   got_429 := 0,
                   got_timeouts := 1 },
        received := [⟨false, none⟩] } ∧
    api_send none (some 1) (fun n => n) ([.timeoutErr] ++ .connError :: []) =
      { trace := { result := .raised .conn,
                   sleeps := [1],
                   attemptsUsed := 2,
                   got_429 := 0,
                   got_timeouts := 2 },
        received := [] } :=
  ⟨((C4_timeout_retries_then_success_or_reraise none 1 (fun n => n)).1
      [.connError] 200 ⟨false, none⟩ (by decide) (by decide) (by decide)).trans
      (by norm_num [List.range_succ]),
   ((C4_timeout_retries_then_success_or_reraise none 1 (fun n => n)).2
      [.timeoutErr] [] .connError (by decide) (by decide) (by decide)).trans
      (by norm_num [raised_of, List.range_succ])⟩

/-- Claim C5: an absent (None) ceiling disables the corresponding exit.
With max_limit_exceeded absent, any number of consecutive rate-limited
attempts leaves the loop still retrying (it never stops via the
counter); with max_timeouts absent, any number of consecutive
connection/timeout errors is absorbed with a sleep each and nothing is
ever re-raised via the counter. -/
theorem C5_absent_ceiling_never_stops (wait_time : Nat → ℚ) :
    (∀ (max_timeouts : Option Nat) (attempts : List AttemptOutcome),
      (∀ a ∈ attempts, isRateLimited a = true) →
      api_send none max_timeouts wait_time attempts =
        { trace := { result := .outOfScript,
                     sleeps := attempts.map claimedRateLimitSleep,
                     attemptsUsed := attempts.length,
                     got_429 := attempts.length,
                     got_timeouts := 0 },
          received := [] })
  ∧ (∀ (max_429 : Option Nat) (attempts : List AttemptOutcome),
      (∀ a ∈ attempts, isConnOrTimeout a = true) →
      api_send max_429 none wait_time attempts =
        { trace := { result := .outOfScript,
                     sleeps := (List.range attempts.length).map (fun i => wait_time (i + 1)),
                     attemptsUsed := attempts.length,
                     got_429 := 0,
                     got_timeouts := attempts.length },
          received := [] }) := by
  constructor
  · intro max_timeouts attempts hpre
    have h := rl_segment none max_timeouts wait_time attempts [] 0 0 hpre
      (fun i hi => rfl)
    rw [List.append_nil] at h
    unfold api_send
    rw [h]
    simp [api_send_loop]
  · intro max_429 attempts hpre
    have h := timeout_segment max_429 none wait_time attempts [] 0 0 hpre
      (fun i hi => rfl)
    rw [List.append_nil] at h
    unfold api_send
    rw [h]
    simp [api_send_loop]

/-- Witness for C5: three rate-limited attempts under an absent rate
limit ceiling, and three connection/timeout errors under an absent
timeout ceiling; in both runs the loop is still retrying at the end of
the script. -/
theorem C5_absent_ceiling_never_stops_witness :
    api_send none (some 0) (fun n => n)
      [.ok 429 ⟨true, none⟩, .ok 429 ⟨true, none⟩, .ok 429 ⟨true, none⟩] =
      { trace := { result := .outOfScript,
                   sleeps := [5, 5, 5],
                   attemptsUsed := 3,
                   got_429 := 3,
                   got_timeouts := 0 },
        received := [] } ∧
    api_send (some 0) none (fun n => n) [.connError, .timeoutErr, .connError] =
      { trace := { result := .outOfScript,
                   sleeps := [1, 2, 3],
                   attemptsUsed := 3,
                   got_429 := 0,
                   got_timeouts := 3 },
        received := [] } :=
  ⟨((C5_absent_ceiling_never_stops (fun n => n)).1 (some 0)
      [.ok 429 ⟨true, none⟩, .ok 429 ⟨true, none⟩, .ok 429 ⟨true, none⟩]
      (by decide)).trans (by norm_num [claimedRateLimitSleep]),
   ((C5_absent_ceiling_never_stops (fun n => n)).2 (some 0)
      [.connError, .timeoutErr, .connError] (by decide)).trans
      (by norm_num [List.range_succ])⟩

/-- Claim C7: a decode failure propagates out of api_send at once: the
exception is not in the except tuple of the retry handler, so whatever
the counters are, the loop raises it using exactly the failing attempt,
with no sleep, no counter increment and no retry; from a fresh call the
counters are still 0 and nothing reaches receive_response. -/
theorem C7_decode_error_surfaced_immediately (max_429 max_timeouts : Option Nat)
    (wait_time : Nat → ℚ) :
    (∀ (rest : List AttemptOutcome) (got_429 got_timeouts : Nat),
      api_send_loop max_429 max_timeouts wait_time (.decodeErr :: rest)
          got_429 got_timeouts =
        { result := .raised .decode, sleeps := [], attemptsUsed := 1,
          got_429 := got_429, got_timeouts := got_timeouts })
  ∧ (∀ rest : List AttemptOutcome,
      api_send max_429 max_timeouts wait_time (.decodeErr :: rest) =
        { trace := { result := .raised .decode, sleeps := [], attemptsUsed := 1,
                     got_429 := 0, got_timeouts := 0 },
          received := [] }) :=
  ⟨fun _ _ _ => rfl, fun _ => rfl⟩

/-- Claim C10: the retry decision after a successful transport exchange
looks only at status 429 and the ErrorResponse shape: any other status,
5xx included, whose body decodes to a non-error variant is terminal and
returned immediately with no retry and no sleep. -/
theorem C10_non_429_non_error_is_terminal (max_429 max_timeouts : Option Nat)
    (wait_time : Nat → ℚ) (rest : List AttemptOutcome)
    (status : Nat) (resp : WireResponse)
    (h : isRateLimited (.ok status resp) = false) :
    api_send max_429 max_timeouts wait_time (.ok status resp :: rest) =
      { trace := { result := .returned resp, sleeps := [], attemptsUsed := 1,
                   got_429 := 0, got_timeouts := 0 },
        received := [resp] } := by
  have hcond : (status == 429 || resp.isError) = false := by
    simpa [isRateLimited] using h
  simp [api_send, api_send_loop, hcond, receive_response]

/-- Witness for C10: an HTTP 500 whose body decoded to a non-error
variant is returned on the first attempt, no sleep, no retry. -/
theorem C10_non_429_non_error_is_terminal_witness :
    api_send (some 3) (some 3) (fun n => n)
      [.ok 500 ⟨false, none⟩, .connError] =
      { trace := { result := .returned ⟨false, none⟩, sleeps := [],
                   attemptsUsed := 1, got_429 := 0, got_timeouts := 0 },
        received := [⟨false, none⟩] } :=
  C10_non_429_non_error_is_terminal (some 3) (some 3) (fun n => n)
    [.connError] 500 ⟨false, none⟩ (by decide)

/-- Claim C6 (code bug): the claim (and the function's own docstring)
says the extra construction data is passed into the variant's
construction, but parse_wire_response only normalizes `data = data or
()` and then calls response_class().parse_data(content), discarding the
extras: the result is independent of the data argument, evaluated here
at the failing input data = (1, 2, 3). -/
theorem C6_extra_data_ignored :
    (∀ {Content : Type} (parseData : Content → WireResponse)
       (content_type : String) (content : Content)
       (d1 d2 : Option (List Nat)),
      parse_wire_response parseData content_type content d1 =
        parse_wire_response parseData content_type content d2)
  ∧ parse_wire_response (fun n : Nat => ⟨false, some n⟩) "application/json" 7
      (some [1, 2, 3]) = ⟨false, some 7⟩ :=
  ⟨fun _ _ _ _ _ => rfl, rfl⟩

/-- Claim C8: session initialization is lazy and idempotent: with no
session present, the wrapper creates exactly one session whose total
timeout is config.request_timeout and whose connector is patched with
connect_wrapper, which caps every new connection's write buffer at
16 * 1024 bytes; with a session present it changes nothing. -/
theorem C8_session_lazy_idempotent :
    (∀ s : AsyncClientState, s.client_session = none →
      client_session_wrapper s =
        { s with client_session := some ⟨s.config_request_timeout, true⟩ })
  ∧ (∀ (s : AsyncClientState) (sess : ClientSessionModel),
      s.client_session = some sess → client_session_wrapper s = s)
  ∧ (∀ s : AsyncClientState,
      client_session_wrapper (client_session_wrapper s) = client_session_wrapper s)
  ∧ (∀ c : ConnectionModel,
      (connect_wrapper c).writeBufferLimit = some (16 * 1024)) := by
  refine ⟨?_, ?_, ?_, ?_⟩
  · intro s h
    simp [client_session_wrapper, h]
  · intro s sess h
    simp [client_session_wrapper, h]
  · intro s
    cases h : s.client_session with
    | none => simp [client_session_wrapper, h]
    | some sess => simp [client_session_wrapper, h]
  · intro c
    rfl

/-- Witness for C8: from a fresh state with request timeout 30 the
wrapper creates the configured session, and running it again changes
nothing. -/
theorem C8_session_lazy_idempotent_witness :
    client_session_wrapper ⟨none, 30⟩ = ⟨some ⟨30, true⟩, 30⟩ ∧
    client_session_wrapper ⟨some ⟨30, true⟩, 30⟩ = ⟨some ⟨30, true⟩, 30⟩ :=
  ⟨C8_session_lazy_idempotent.1 ⟨none, 30⟩ rfl,
   C8_session_lazy_idempotent.2.1 ⟨some ⟨30, true⟩, 30⟩ ⟨30, true⟩ rfl⟩

/-- Claim C9: for every call to send, the request URL is the fixed
server base URL concatenated with the path, the effective timeout is the
explicit per-call timeout when supplied, and config.request_timeout
otherwise. -/
theorem C9_send_url_and_effective_timeout (config_request_timeout : ℚ)
    (method path : String) (timeout : Option ℚ) (t : ℚ) :
    (send wire_server config_request_timeout method path timeout).url =
        wire_server ++ path
  ∧ (send wire_server config_request_timeout method path none).timeout =
        config_request_timeout
  ∧ (send wire_server config_request_timeout method path (some t)).timeout = t :=
  ⟨rfl, rfl, rfl⟩
